import Mathlib

/-!
Shallow embedding of the notification helper of `src/lib/rltools/messages.py`
(repository PyRevit_RL_Tools).

The module has one entry point, `show_start_message`, three helpers
(`_should_show_for_doc`, `_alert_wpf_with_bold`, `_open_worksets_dialog_safely`)
and a fixed message `START_MESSAGE`.  The embedding models:

  * Python strings as Lean `String`s, with `pySplit` / `pyReplace` implementing
    the exact left-to-right non-overlapping semantics of Python's
    `str.split(sep)` and `str.replace(old, new)`;
  * the host document (`doc`) as an optional record whose two attributes
    `IsFamilyDocument` and `IsLinked` may each be absent (`Option Bool`),
    matching the `getattr(doc, "IsFamilyDocument", False)` and
    `hasattr(doc, "IsLinked") and doc.IsLinked` probes of the source;
  * the fallible host primitives (the WPF toolkit, `TaskDialog.Show`, the
    Worksets command lookup / posting) through an `Env` record of failure
    flags; an exception raised by a primitive is an `Except.error`;
  * observable behaviour as a `Trace` of events: a rich WPF dialog shown (with
    its fully rendered block structure), a plain TaskDialog shown, a console
    line printed, the follow-up trigger invoked, and the Worksets command
    posted.  Events are appended in execution order, and a modal dialog's
    event stands for "shown and then dismissed by the user", since
    `win.ShowDialog()` only returns after dismissal.

The Python function `show_start_message` has no `return <value>` statement:
both the early `return` (line 49) and falling off the end return Python's
`None`.  The embedding therefore returns `Option Bool` as the Python return
value (always `none`), paired with the trace, inside `Except` to record that
no exception escapes.
-/

namespace RLTools

/-- Python `str.split(sep)` over character lists, for a non-empty separator
`c0 :: cs`: scan left to right, cutting at each non-overlapping occurrence of
the separator.  The `Nat` argument is recursion fuel; the wrappers always pass
the length of the scanned list, which is enough fuel to finish the scan, so
the `0, s => [s]` arm is never reached on a non-empty remainder. -/
def pySplitSepGo (c0 : Char) (cs : List Char) : Nat → List Char → List (List Char)
  | _, [] => [[]]
  | 0, s => [s]
  | n+1, a :: rest =>
    if List.isPrefixOf (c0 :: cs) (a :: rest) then
      [] :: pySplitSepGo c0 cs n (List.drop cs.length rest)
    else
      match pySplitSepGo c0 cs n rest with
      | [] => [[a]]
      | h :: t => (a :: h) :: t

/-- Python `str.replace(old, new)` over character lists, for a non-empty
pattern `c0 :: cs`: replace each non-overlapping occurrence, left to right.
Fuel discipline as in `pySplitSepGo`. -/
def pyReplaceSepGo (c0 : Char) (cs : List Char) (r : List Char) : Nat → List Char → List Char
  | _, [] => []
  | 0, s => s
  | n+1, a :: rest =>
    if List.isPrefixOf (c0 :: cs) (a :: rest) then
      r ++ pyReplaceSepGo c0 cs r n (List.drop cs.length rest)
    else
      a :: pyReplaceSepGo c0 cs r n rest

/-- Python `s.split(sep)`.  (Python raises `ValueError` on an empty separator;
the source only ever splits on `"\n\n"`, `"**"` and `"\n"`, so that arm is
unreachable and mapped to the identity split.) -/
def pySplit (sep s : String) : List String :=
  match sep.data with
  | [] => [s]
  | c :: cs => (pySplitSepGo c cs s.data.length s.data).map String.mk

/-- Python `s.replace(old, new)` (empty `old` unreachable in the source). -/
def pyReplace (old new s : String) : String :=
  match old.data with
  | [] => s
  | c :: cs => String.mk (pyReplaceSepGo c cs new.data s.data.length s.data)

/-- The fixed onboarding message `START_MESSAGE` of `messages.py`
(lines 34-38), with its mini-markdown `**bold**` markers and the blank line
separating the two paragraphs. -/
def START_MESSAGE : String :=
  "Please Check Your Current **<<Workset>>**.\n\n" ++
  "For New Users, please read the **<<Starting View>>** (Available in only new projects) " ++
  "for GB Standards & Best Practices."

/-- A host document handle, as probed by `_should_show_for_doc`: each of the
two attributes may be absent (`none`), mirroring Python objects on which
`getattr`/`hasattr` fail, or present with a boolean value. -/
structure Doc where
  IsFamilyDocument : Option Bool
  IsLinked : Option Bool
deriving DecidableEq

/-- Embedding of `_should_show_for_doc` (messages.py lines 73-85):
`doc is None` → show; `getattr(doc, "IsFamilyDocument", False)` truthy → skip;
`hasattr(doc, "IsLinked") and doc.IsLinked` → skip; otherwise show. -/
def should_show_for_doc : Option Doc → Bool
  | none => true
  | some doc =>
    if doc.IsFamilyDocument.getD false then false
    else if doc.IsLinked.isSome && doc.IsLinked.getD false then false
    else true

/-- The effective family flag the code reads: `getattr(doc, "IsFamilyDocument", False)`. -/
def docIsFamily (d : Doc) : Bool := d.IsFamilyDocument.getD false

/-- The effective linked flag the code reads: `hasattr(doc, "IsLinked") and doc.IsLinked`. -/
def docIsLinked (d : Doc) : Bool := d.IsLinked.isSome && d.IsLinked.getD false

/-- A WPF inline of the rich dialog: a `Run` (possibly wrapped in `Bold`), or
a `LineBreak`. -/
inductive Inline where
  | run (bold : Bool) (text : String)
  | lineBreak
deriving DecidableEq

/-- One WPF `TextBlock` of the rich dialog: whether the
`Thickness(0, 8, 0, 0)` top margin was set (true for every paragraph except
the first, messages.py lines 131-132), and its inlines in order. -/
structure TextBlock where
  topMargin : Bool
  inlines : List Inline
deriving DecidableEq

/-- Embedding of `_add_text_chunk` (messages.py lines 105-111) after the `text.split("\n")`:
one `Run` per part, a `LineBreak` between consecutive parts. -/
def chunkParts (make_bold : Bool) : List String → List Inline
  | [] => []
  | [c] => [Inline.run make_bold c]
  | c :: rest => Inline.run make_bold c :: Inline.lineBreak :: chunkParts make_bold rest

/-- Embedding of `_add_text_chunk(tb, text, make_bold)`: the inlines appended to the
text block for one `**`-segment. -/
def add_text_chunk (make_bold : Bool) (text : String) : List Inline :=
  chunkParts make_bold (pySplit "\n" text)

/-- The inlines of one paragraph's `TextBlock` (messages.py lines 128-130):
`segments = para.split("**")`, then for each `i, seg` in `enumerate(segments)`
append `_add_text_chunk(tb, seg, make_bold=(i % 2 == 1))`. -/
def renderParagraph (para : String) : List Inline :=
  ((pySplit "**" para).enum).foldl
    (fun acc x => acc ++ add_text_chunk (x.1 % 2 == 1) x.2) []

/-- The rich dialog's block structure (messages.py lines 125-133): one
`TextBlock` per element of `message.split("\n\n")`, appended to the stack
panel in order; the top margin is set exactly when the panel already has a
child (`root.Children.Count > 0`). -/
def renderMessage (message : String) : List TextBlock :=
  (pySplit "\n\n" message).foldl
    (fun acc para =>
      acc ++ [TextBlock.mk (acc.length != 0) (renderParagraph para)]) []

/-- Failure switches for the fallible host primitives the source guards with
`try/except`: does the WPF attempt raise anywhere inside its `try` (missing
assemblies, construction or `ShowDialog` failure); does the
`TaskDialog` import-or-`Show` raise; does the body of
`_open_worksets_dialog_safely`'s `try` raise; and does
`LookupPostableCommandId` return a (truthy) command id. -/
structure Env where
  wpfRaises : Bool
  taskDialogRaises : Bool
  worksetLookupRaises : Bool
  worksetCmdFound : Bool
deriving DecidableEq

/-- Observable events, in execution order.  A dialog event stands for the
modal dialog having been shown and dismissed (control only continues after
`ShowDialog`/`Show` returns). -/
inductive Ev where
  | richShown (title : String) (blocks : List TextBlock)
  | plainShown (title : String) (body : String)
  | consolePrinted (line : String)
  | followupInvoked
  | followupPosted
deriving DecidableEq

/-- A trace of observable events of one invocation. -/
abbrev Trace := List Ev

/-- The `try` body of `_alert_wpf_with_bold` (messages.py lines 92-156):
either raises (any of the WPF steps failing) or builds the block structure
from the message and shows the dialog modally. -/
def alert_wpf_body (env : Env) (title message : String) : Except Unit Trace :=
  if env.wpfRaises then Except.error ()
  else Except.ok [Ev.richShown title (renderMessage message)]

/-- Embedding of `_alert_wpf_with_bold` (messages.py lines 88-159): the whole body is one
`try`; on success return `True`, on any exception return `False`.  The trace
holds what became visible. -/
def alert_wpf_with_bold (env : Env) (title message : String) : Bool × Trace :=
  match alert_wpf_body env title message with
  | Except.ok tr => (true, tr)
  | Except.error _ => (false, [])

/-- The host primitive `TaskDialog.Show(title, body)` together with the
loading of its module (messages.py lines 57-58): raises or shows the plain
dialog. -/
def taskDialog_Show (env : Env) (title body : String) : Except Unit Trace :=
  if env.taskDialogRaises then Except.error ()
  else Except.ok [Ev.plainShown title body]

/-- The `try` body of `_open_worksets_dialog_safely` (messages.py
lines 167-171): raises, or looks up the Worksets command id and posts the
command when the id is truthy. -/
def open_worksets_body (env : Env) : Except Unit Trace :=
  if env.worksetLookupRaises then Except.error ()
  else Except.ok (if env.worksetCmdFound then [Ev.followupPosted] else [])

/-- Embedding of `_open_worksets_dialog_safely` (messages.py lines 162-174): the follow-up
trigger.  Its invocation is recorded (`followupInvoked`), and its body is
guarded by `try/except: pass`, so a failure degrades to a silent no-op. -/
def open_worksets_dialog_safely (env : Env) : Trace :=
  Ev.followupInvoked ::
    (match open_worksets_body env with
     | Except.ok tr => tr
     | Except.error _ => [])

/-- The plain-text body used by the fallback paths:
`START_MESSAGE.replace("**", "")` (messages.py lines 58 and 62). -/
def plain_text : String := pyReplace "**" "" START_MESSAGE

/-- The console line of the last-resort fallback:
`"[RL Tools] {}: {}".format(title, START_MESSAGE.replace("**", ""))`
(messages.py line 62). -/
def consoleLine (title : String) : String :=
  "[RL Tools] " ++ title ++ ": " ++ plain_text

/-- Embedding of `show_start_message` (messages.py lines 41-66).  Step by step:
1. `if not (force or _should_show_for_doc(doc)): return` — Python's bare
   `return` yields `None`, modelled as `Option.none`, with an empty trace;
2. `shown = _alert_wpf_with_bold(title, START_MESSAGE)`;
3. `if not shown:` try `TaskDialog.Show(title, START_MESSAGE.replace("**", ""))`
   and set `shown = True`; on exception print the console line (and leave
   `shown` as it was);
4. `if shown and open_worksets_after: _open_worksets_dialog_safely()`.
The function body ends without a `return` statement, so the Python return
value is `None` on every path; the `Except` layer records whether an
exception escapes the call (it never does: every fallible step is inside a
`try/except`). -/
def show_start_message (env : Env) (title : String) (force : Bool)
    (doc : Option Doc) (open_worksets_after : Bool) :
    Except Unit (Option Bool × Trace) :=
  if !(force || should_show_for_doc doc) then
    Except.ok (none, [])
  else
    let r1 := alert_wpf_with_bold env title START_MESSAGE
    let r2 :=
      if !r1.1 then
        match taskDialog_Show env title (pyReplace "**" "" START_MESSAGE) with
        | Except.ok tr => (true, tr)
        | Except.error _ => (r1.1, [Ev.consolePrinted (consoleLine title)])
      else (r1.1, [])
    let tr3 :=
      if r2.1 && open_worksets_after then open_worksets_dialog_safely env else []
    Except.ok (none, r1.2 ++ r2.2 ++ tr3)

/-- The trace of a completed call (the call always completes; an escaped
exception would have no trace). -/
def resultTrace (r : Except Unit (Option Bool × Trace)) : Trace :=
  match r with
  | Except.ok p => p.2
  | Except.error _ => []

/-- The Python return value of a completed call. -/
def resultVal (r : Except Unit (Option Bool × Trace)) : Option Bool :=
  match r with
  | Except.ok p => p.1
  | Except.error _ => none

/-- Did the call complete without an exception escaping? -/
def exceptIsOk (r : Except Unit (Option Bool × Trace)) : Bool :=
  match r with
  | Except.ok _ => true
  | Except.error _ => false

/-- Is this event a dialog being displayed (rich or plain)? -/
def isDialog : Ev → Bool
  | Ev.richShown _ _ => true
  | Ev.plainShown _ _ => true
  | _ => false

/-- Number of dialogs displayed in a trace. -/
def dialogCount : Trace → Nat
  | [] => 0
  | e :: t => (if isDialog e then 1 else 0) + dialogCount t

/-- Was any dialog displayed? -/
def hasDialog (tr : Trace) : Bool := tr.any isDialog

/-- Was the plain `TaskDialog` displayed? -/
def hasPlain : Trace → Bool
  | [] => false
  | Ev.plainShown _ _ :: _ => true
  | _ :: t => hasPlain t

/-- Number of invocations of the follow-up trigger in a trace. -/
def countFollowupInvoked : Trace → Nat
  | [] => 0
  | Ev.followupInvoked :: t => countFollowupInvoked t + 1
  | _ :: t => countFollowupInvoked t

/-- Was the follow-up trigger invoked? -/
def hasFollowupInvoked : Trace → Bool
  | [] => false
  | Ev.followupInvoked :: _ => true
  | _ :: t => hasFollowupInvoked t

/-- Was the Worksets command actually posted? -/
def hasFollowupPosted : Trace → Bool
  | [] => false
  | Ev.followupPosted :: _ => true
  | _ :: t => hasFollowupPosted t

/-- Scanning the trace from the start, no follow-up invocation occurs before
a dialog has been displayed (and dismissed). -/
def noFollowupBeforeDialog : Trace → Bool
  | [] => true
  | Ev.followupInvoked :: _ => false
  | e :: t => if isDialog e then true else noFollowupBeforeDialog t

/-! ### Reduction lemmas: the four execution paths of `show_start_message` -/

/-- Skip path (line 48-49): visibility fails and `force` is off — empty
trace, `None` returned. -/
theorem run_skip (env : Env) (title : String) (force : Bool) (doc : Option Doc)
    (owa : Bool) (hc : (force || should_show_for_doc doc) = false) :
    show_start_message env title force doc owa = Except.ok (none, []) := by
  simp [show_start_message, hc]

/-- Rich path: the WPF attempt succeeds; the trace is the rich dialog followed
by the optional follow-up part. -/
theorem run_rich (env : Env) (title : String) (force : Bool) (doc : Option Doc)
    (owa : Bool) (hc : (force || should_show_for_doc doc) = true)
    (hw : env.wpfRaises = false) :
    show_start_message env title force doc owa =
      Except.ok (none, Ev.richShown title (renderMessage START_MESSAGE) ::
        (if owa then open_worksets_dialog_safely env else [])) := by
  simp [show_start_message, hc, alert_wpf_with_bold, alert_wpf_body, hw]

/-- Plain path: WPF raises, `TaskDialog.Show` succeeds; the trace is the plain
dialog followed by the optional follow-up part. -/
theorem run_plain (env : Env) (title : String) (force : Bool) (doc : Option Doc)
    (owa : Bool) (hc : (force || should_show_for_doc doc) = true)
    (hw : env.wpfRaises = true) (ht : env.taskDialogRaises = false) :
    show_start_message env title force doc owa =
      Except.ok (none, Ev.plainShown title plain_text ::
        (if owa then open_worksets_dialog_safely env else [])) := by
  simp [show_start_message, hc, alert_wpf_with_bold, alert_wpf_body, hw,
    taskDialog_Show, ht, plain_text]

/-- Console path: both the WPF attempt and `TaskDialog.Show` raise; `shown`
stays `False`, so only the console line is emitted and no follow-up runs. -/
theorem run_console (env : Env) (title : String) (force : Bool) (doc : Option Doc)
    (owa : Bool) (hc : (force || should_show_for_doc doc) = true)
    (hw : env.wpfRaises = true) (ht : env.taskDialogRaises = true) :
    show_start_message env title force doc owa =
      Except.ok (none, [Ev.consolePrinted (consoleLine title)]) := by
  simp [show_start_message, hc, alert_wpf_with_bold, alert_wpf_body, hw,
    taskDialog_Show, ht]

/-- The filter `_should_show_for_doc` on a present document, re-expressed through the two
effective flags the code reads. -/
theorem should_show_some (d : Doc) :
    should_show_for_doc (some d) = (!(docIsFamily d || docIsLinked d)) := by
  rcases d with ⟨_ | fb, _ | lb⟩
  · decide
  · cases lb <;> decide
  · cases fb <;> decide
  · cases fb <;> cases lb <;> decide

/-- When the visibility check passes (or `force` is set), the call always
leaves a non-empty trace: a rich dialog, a plain dialog, or at worst the
console line. -/
theorem visible_trace_ne_nil (env : Env) (title : String) (force : Bool)
    (doc : Option Doc) (owa : Bool)
    (hc : (force || should_show_for_doc doc) = true) :
    resultTrace (show_start_message env title force doc owa) ≠ [] := by
  rcases env with ⟨w, t, x, y⟩
  cases w
  · rw [run_rich _ _ _ _ _ hc rfl]
    simp [resultTrace]
  · cases t
    · rw [run_plain _ _ _ _ _ hc rfl rfl]
      simp [resultTrace]
    · rw [run_console _ _ _ _ _ hc rfl rfl]
      simp [resultTrace]

/-! ### Claim theorems -/

/-- Claim C1: visibility rule of `show_start_message`.  For every document
whose effective `is_family` flag or effective `is_linked` flag is true, a call
with `force = False` performs no visible action (empty trace: no dialog, no
console output, no follow-up) and returns Python `None`, the not-shown
(falsy) result.  For a document with both flags false, or an absent document,
or `force = True`, the call attempts display: its trace is non-empty. -/
theorem c1_visibility_rule (env : Env) (title : String) (owa : Bool) :
    (∀ d : Doc, docIsFamily d = true ∨ docIsLinked d = true →
        show_start_message env title false (some d) owa = Except.ok (none, [])) ∧
    (∀ (force : Bool) (doc : Option Doc),
        (doc = none ∨ force = true ∨
          (∃ d, doc = some d ∧ docIsFamily d = false ∧ docIsLinked d = false)) →
        resultTrace (show_start_message env title force doc owa) ≠ []) := by
  constructor
  · intro d hd
    have h1 : should_show_for_doc (some d) = false := by
      rw [should_show_some]
      rcases hd with h | h <;> simp [h]
    exact run_skip env title false (some d) owa (by simp [h1])
  · intro force doc h
    apply visible_trace_ne_nil
    rcases h with h | h | ⟨d, hd, h1, h2⟩
    · simp [h, should_show_for_doc]
    · simp [h]
    · subst hd
      simp [should_show_some, h1, h2]

/-- Witness for C1 at concrete inputs: a family document with `force = False`
is skipped; an absent document leads to a display attempt. -/
theorem c1_visibility_rule_witness :
    show_start_message (Env.mk false false false false) "RL Tools" false
        (some (Doc.mk (some true) none)) true = Except.ok (none, []) ∧
    resultTrace (show_start_message (Env.mk false false false false)
        "RL Tools" true none true) ≠ [] :=
  ⟨(c1_visibility_rule (Env.mk false false false false) "RL Tools" true).1
      (Doc.mk (some true) none) (Or.inl (by decide)),
   (c1_visibility_rule (Env.mk false false false false) "RL Tools" true).2
      true none (Or.inl rfl)⟩

/-- Claim C9: force-flag noninterference.  With `force = True` the `or` on
line 48 short-circuits, so the document (present, absent or malformed in any
way the model allows) never influences the call: any two documents give
identical results and traces. -/
theorem c9_force_noninterference (env : Env) (title : String) (owa : Bool)
    (d1 d2 : Option Doc) :
    show_start_message env title true d1 owa =
      show_start_message env title true d2 owa := by
  simp [show_start_message]

/-- Claim C10: missing-capability fail-open.  A present document whose
`IsFamilyDocument` attribute is absent (so `getattr` yields the default
`False`) or present-but-false, and whose `IsLinked` attribute is absent (so
`hasattr` is false), is treated as visible by `_should_show_for_doc`. -/
theorem c10_missing_capability (d : Doc)
    (hf : d.IsFamilyDocument = none ∨ d.IsFamilyDocument = some false)
    (hl : d.IsLinked = none) :
    should_show_for_doc (some d) = true := by
  rcases hf with h | h <;> simp [should_show_for_doc, h, hl]

/-- Witness for C10: the document exposing neither attribute is visible. -/
theorem c10_missing_capability_witness :
    should_show_for_doc (some (Doc.mk none none)) = true :=
  c10_missing_capability (Doc.mk none none) (Or.inl rfl) rfl

/-- Claim C3: follow-up trigger.  In every invocation, the follow-up trigger
`_open_worksets_dialog_safely` is invoked exactly once when a dialog was shown
and `open_worksets_after` is set, and zero times otherwise (in particular
never when the message was skipped); and scanning the trace in execution
order, no invocation of the trigger ever precedes the dismissal of the
primary dialog. -/
theorem c3_followup_trigger (env : Env) (title : String) (force : Bool)
    (doc : Option Doc) (owa : Bool) :
    countFollowupInvoked (resultTrace (show_start_message env title force doc owa)) =
      (if hasDialog (resultTrace (show_start_message env title force doc owa)) && owa
       then 1 else 0) ∧
    noFollowupBeforeDialog (resultTrace (show_start_message env title force doc owa)) =
      true := by
  rcases env with ⟨w, t, x, y⟩
  cases hc : (force || should_show_for_doc doc)
  · rw [run_skip _ _ _ _ _ hc]
    simp [resultTrace, countFollowupInvoked, hasDialog, noFollowupBeforeDialog]
  · cases w
    · rw [run_rich _ _ _ _ _ hc rfl]
      cases owa <;> cases x <;> cases y <;>
        simp [resultTrace, countFollowupInvoked, hasDialog, noFollowupBeforeDialog,
          isDialog, open_worksets_dialog_safely, open_worksets_body]
    · cases t
      · rw [run_plain _ _ _ _ _ hc rfl rfl]
        cases owa <;> cases x <;> cases y <;>
          simp [resultTrace, countFollowupInvoked, hasDialog, noFollowupBeforeDialog,
            isDialog, open_worksets_dialog_safely, open_worksets_body]
      · rw [run_console _ _ _ _ _ hc rfl rfl]
        simp [resultTrace, countFollowupInvoked, hasDialog, noFollowupBeforeDialog,
          isDialog]

/-- Claim C5: per-invocation dialog invariant.  At most one dialog is ever
displayed per call (a successful rich presentation precludes the plain one
and vice versa), and neither the invocation of the follow-up trigger nor the
posting of the Worksets command ever happens in a trace without a displayed
primary dialog. -/
theorem c5_dialog_invariant (env : Env) (title : String) (force : Bool)
    (doc : Option Doc) (owa : Bool) :
    dialogCount (resultTrace (show_start_message env title force doc owa)) ≤ 1 ∧
    (hasFollowupPosted (resultTrace (show_start_message env title force doc owa)) &&
      !hasDialog (resultTrace (show_start_message env title force doc owa))) = false ∧
    (hasFollowupInvoked (resultTrace (show_start_message env title force doc owa)) &&
      !hasDialog (resultTrace (show_start_message env title force doc owa))) = false := by
  rcases env with ⟨w, t, x, y⟩
  cases hc : (force || should_show_for_doc doc)
  · rw [run_skip _ _ _ _ _ hc]
    simp [resultTrace, dialogCount, hasDialog, hasFollowupPosted, hasFollowupInvoked]
  · cases w
    · rw [run_rich _ _ _ _ _ hc rfl]
      cases owa <;> cases x <;> cases y <;>
        simp [resultTrace, dialogCount, hasDialog, hasFollowupPosted,
          hasFollowupInvoked, isDialog, open_worksets_dialog_safely,
          open_worksets_body]
    · cases t
      · rw [run_plain _ _ _ _ _ hc rfl rfl]
        cases owa <;> cases x <;> cases y <;>
          simp [resultTrace, dialogCount, hasDialog, hasFollowupPosted,
            hasFollowupInvoked, isDialog, open_worksets_dialog_safely,
            open_worksets_body]
      · rw [run_console _ _ _ _ _ hc rfl rfl]
        simp [resultTrace, dialogCount, hasDialog, hasFollowupPosted,
          hasFollowupInvoked, isDialog]

/-- Counterexample to claim C2 as stated: with every host primitive healthy
and `force = True`, the rich dialog is displayed, yet `show_start_message`
does not return `True` — the Python function has no `return <value>`
statement, so it returns `None` on every path. -/
theorem c2_counterexample :
    hasDialog (resultTrace (show_start_message (Env.mk false false false false)
        "RL Tools" true none false)) = true ∧
    resultVal (show_start_message (Env.mk false false false false)
        "RL Tools" true none false) ≠ some true := by
  rw [run_rich _ _ _ _ _ (by decide) rfl]
  constructor
  · simp [resultTrace, hasDialog, isDialog]
  · simp [resultVal]

/-- Claim C2 as amended: `show_start_message` returns Python `None` (a falsy,
not-shown value) on every input; internally, a dialog is displayed exactly
when the message passes the visibility filter (or `force` is set) and at
least one of the two presentation paths succeeds — the skip path and the
diagnostic-console fallback display no dialog. -/
theorem c2_return_value (env : Env) (title : String) (force : Bool)
    (doc : Option Doc) (owa : Bool) :
    resultVal (show_start_message env title force doc owa) = none ∧
    hasDialog (resultTrace (show_start_message env title force doc owa)) =
      ((force || should_show_for_doc doc) &&
        (!env.wpfRaises || !env.taskDialogRaises)) := by
  rcases env with ⟨w, t, x, y⟩
  cases hc : (force || should_show_for_doc doc)
  · rw [run_skip _ _ _ _ _ hc]
    simp [resultTrace, resultVal, hasDialog]
  · cases w
    · rw [run_rich _ _ _ _ _ hc rfl]
      simp [resultTrace, resultVal, hasDialog, isDialog]
    · cases t
      · rw [run_plain _ _ _ _ _ hc rfl rfl]
        simp [resultTrace, resultVal, hasDialog, isDialog]
      · rw [run_console _ _ _ _ _ hc rfl rfl]
        simp [resultTrace, resultVal, hasDialog, isDialog]

/-- Claim C4: error containment and degradation.  No exception escapes the
top-level call for any combination of primitive failures; when the WPF
attempt raises and `TaskDialog` works, the plain dialog is displayed; when
both raise, the call still completes normally with exactly the console line
as its trace; and a failing Worksets lookup means the command is never
posted (silent no-op). -/
theorem c4_error_containment (env : Env) (title : String) (force : Bool)
    (doc : Option Doc) (owa : Bool) :
    exceptIsOk (show_start_message env title force doc owa) = true ∧
    (env.wpfRaises = true → env.taskDialogRaises = false →
      (force || should_show_for_doc doc) = true →
      hasPlain (resultTrace (show_start_message env title force doc owa)) = true) ∧
    (env.wpfRaises = true → env.taskDialogRaises = true →
      (force || should_show_for_doc doc) = true →
      show_start_message env title force doc owa =
        Except.ok (none, [Ev.consolePrinted (consoleLine title)])) ∧
    (env.worksetLookupRaises = true →
      hasFollowupPosted (resultTrace (show_start_message env title force doc owa)) =
        false) := by
  refine ⟨?_, ?_, ?_, ?_⟩
  · rcases env with ⟨w, t, x, y⟩
    cases hc : (force || should_show_for_doc doc)
    · rw [run_skip _ _ _ _ _ hc]; simp [exceptIsOk]
    · cases w
      · rw [run_rich _ _ _ _ _ hc rfl]; simp [exceptIsOk]
      · cases t
        · rw [run_plain _ _ _ _ _ hc rfl rfl]; simp [exceptIsOk]
        · rw [run_console _ _ _ _ _ hc rfl rfl]; simp [exceptIsOk]
  · intro hw ht hc
    rw [run_plain _ _ _ _ _ hc hw ht]
    simp [resultTrace, hasPlain]
  · intro hw ht hc
    exact run_console _ _ _ _ _ hc hw ht
  · intro hx
    rcases env with ⟨w, t, x, y⟩
    cases hx
    cases hc : (force || should_show_for_doc doc)
    · rw [run_skip _ _ _ _ _ hc]; simp [resultTrace, hasFollowupPosted]
    · cases w
      · rw [run_rich _ _ _ _ _ hc rfl]
        cases owa <;>
          simp [resultTrace, hasFollowupPosted, open_worksets_dialog_safely,
            open_worksets_body]
      · cases t
        · rw [run_plain _ _ _ _ _ hc rfl rfl]
          cases owa <;>
            simp [resultTrace, hasFollowupPosted, open_worksets_dialog_safely,
              open_worksets_body]
        · rw [run_console _ _ _ _ _ hc rfl rfl]
          simp [resultTrace, hasFollowupPosted]

/-- Witness for C4 at concrete inputs: WPF failing alone yields the plain
dialog; both presenters failing yields exactly the console line; a failing
Worksets lookup posts nothing. -/
theorem c4_error_containment_witness :
    hasPlain (resultTrace (show_start_message (Env.mk true false false false)
        "RL Tools" true none false)) = true ∧
    show_start_message (Env.mk true true false false) "RL Tools" true none false =
      Except.ok (none, [Ev.consolePrinted (consoleLine "RL Tools")]) ∧
    hasFollowupPosted (resultTrace (show_start_message (Env.mk false false true true)
        "RL Tools" true none true)) = false :=
  ⟨(c4_error_containment (Env.mk true false false false) "RL Tools" true none
      false).2.1 rfl rfl (by decide),
   (c4_error_containment (Env.mk true true false false) "RL Tools" true none
      false).2.2.1 rfl rfl (by decide),
   (c4_error_containment (Env.mk false false true true) "RL Tools" true none
      true).2.2.2 rfl⟩

/-! ### Rendering and stripping: supporting lemmas -/

/-- Folding with append, starting from `acc`, is `acc` followed by the bind. -/
theorem foldl_append_bind {α β : Type} (f : α → List β) :
    ∀ (l : List α) (acc : List β),
      l.foldl (fun a x => a ++ f x) acc = acc ++ l.flatMap f := by
  intro l
  induction l with
  | nil => intro acc; simp
  | cons h t ih =>
    intro acc
    simp only [List.foldl_cons, ih]
    simp

/-- The text-block fold of the renderer, characterized declaratively: starting
from `acc`, it appends one block per paragraph, indexed from `acc.length`,
with the top margin set exactly for indices other than 0. -/
theorem foldl_blocks (rp : String → List Inline) :
    ∀ (l : List String) (acc : List TextBlock),
      l.foldl (fun a p => a ++ [TextBlock.mk (a.length != 0) (rp p)]) acc =
        acc ++ (l.enumFrom acc.length).map
          (fun x => TextBlock.mk (x.1 != 0) (rp x.2)) := by
  intro l
  induction l with
  | nil => intro acc; simp [List.enumFrom]
  | cons p t ih =>
    intro acc
    simp only [List.foldl_cons, ih, List.enumFrom, List.map]
    simp [List.length_append]

/-- Lemma: `pySplitSepGo` never returns the empty list of fields. -/
theorem pySplitSepGo_ne_nil (c0 : Char) (cs : List Char) :
    ∀ (n : Nat) (s : List Char), pySplitSepGo c0 cs n s ≠ [] := by
  intro n s
  match n, s with
  | _, [] => simp [pySplitSepGo]
  | 0, a :: rest => simp [pySplitSepGo]
  | n+1, a :: rest =>
    simp only [pySplitSepGo]
    split
    · simp
    · split <;> simp

/-- Replacing by the empty string is exactly joining the fields of the split:
every occurrence of the pattern is removed and nothing else changes. -/
theorem pyReplaceSepGo_join (c0 : Char) (cs : List Char) :
    ∀ (n : Nat) (s : List Char),
      pyReplaceSepGo c0 cs [] n s = (pySplitSepGo c0 cs n s).flatten := by
  intro n
  induction n with
  | zero => intro s; cases s <;> simp [pyReplaceSepGo, pySplitSepGo]
  | succ n ih =>
    intro s
    cases s with
    | nil => simp [pyReplaceSepGo, pySplitSepGo]
    | cons a rest =>
      simp only [pyReplaceSepGo, pySplitSepGo]
      split
      · simp [ih]
      · cases hsg : pySplitSepGo c0 cs n rest with
        | nil => exact absurd hsg (pySplitSepGo_ne_nil c0 cs n rest)
        | cons h t =>
          have hr := ih rest
          rw [hsg] at hr
          simp [hsg, hr]

/-- Joining mapped `String.mk`s, from an initial accumulator. -/
theorem join_map_mk_aux :
    ∀ (L : List (List Char)) (acc : List Char),
      (L.map String.mk).foldl (fun r s => r ++ s) (String.mk acc) =
        String.mk (acc ++ L.flatten) := by
  intro L
  induction L with
  | nil => intro acc; simp
  | cons l L ih =>
    intro acc
    simp only [List.map, List.foldl]
    have h1 : String.mk acc ++ String.mk l = String.mk (acc ++ l) := rfl
    rw [h1, ih]
    simp

/-- Lemma: `String.join` of the `String.mk`s of character lists is the `String.mk`
of their concatenation. -/
theorem join_map_mk (L : List (List Char)) :
    String.join (L.map String.mk) = String.mk L.flatten := by
  show (L.map String.mk).foldl (fun r s => r ++ s) "" = String.mk L.flatten
  have h0 : ("" : String) = String.mk [] := rfl
  rw [h0, join_map_mk_aux]
  simp

/-! ### Claims C6, C7, C8 -/

/-- Claim C6: emphasis rendering.  For every paragraph, the inlines built by
`_alert_wpf_with_bold`'s inner loop are exactly the chunks of the paragraph's
`"**"`-split, in order, where the segment at 0-based index `i` is rendered
bold precisely when `i` is odd; in particular `"a**b**c"` yields plain "a",
bold "b", plain "c". -/
theorem c6_emphasis_rendering :
    (∀ para : String, renderParagraph para =
      ((pySplit "**" para).enum).flatMap
        (fun x => add_text_chunk (x.1 % 2 == 1) x.2)) ∧
    renderParagraph "a**b**c" =
      [Inline.run false "a", Inline.run true "b", Inline.run false "c"] := by
  constructor
  · intro para
    show ((pySplit "**" para).enum).foldl
        (fun acc x => acc ++ add_text_chunk (x.1 % 2 == 1) x.2) [] = _
    rw [foldl_append_bind]
    simp
  · decide

/-- Claim C7: paragraph rendering.  The rich renderer produces one `TextBlock`
per element of the `"\n\n"`-split of the message, in order, with the top
margin set exactly on every block after the first; a single `"\n"` inside a
segment becomes a `LineBreak` inline between the `Run`s of one block, never a
new block; in particular `"a\n\nb"` yields exactly the two blocks "a" and
"b", while `"a\nb"` yields one block with an internal line break. -/
theorem c7_paragraph_rendering :
    (∀ message : String, renderMessage message =
      ((pySplit "\n\n" message).enum).map
        (fun x => TextBlock.mk (x.1 != 0) (renderParagraph x.2))) ∧
    (∀ (make_bold : Bool) (parts : List String),
      chunkParts make_bold parts =
        List.intersperse Inline.lineBreak (parts.map (Inline.run make_bold))) ∧
    renderMessage "a\n\nb" =
      [TextBlock.mk false [Inline.run false "a"],
       TextBlock.mk true [Inline.run false "b"]] ∧
    renderMessage "a\nb" =
      [TextBlock.mk false
        [Inline.run false "a", Inline.lineBreak, Inline.run false "b"]] := by
  refine ⟨?_, ?_, by decide, by decide⟩
  · intro message
    show (pySplit "\n\n" message).foldl
        (fun acc para =>
          acc ++ [TextBlock.mk (acc.length != 0) (renderParagraph para)]) [] = _
    rw [foldl_blocks]
    simp [List.enum]
  · intro make_bold parts
    induction parts with
    | nil => simp [chunkParts]
    | cons c rest ih =>
      cases rest with
      | nil => simp [chunkParts, List.intersperse]
      | cons c2 rest2 =>
        simp only [chunkParts, List.map] at ih ⊢
        rw [ih]
        simp [List.intersperse]

/-- Claim C8: plain fallback stripping.  `START_MESSAGE.replace("**", "")`
removes every literal occurrence of `"**"` and alters nothing else: for every
string, the replacement equals the concatenation of the fields of the
`"**"`-split; in particular `"Check **X**."` strips to `"Check X."`, and the
plain-path body is the join of the split of `START_MESSAGE`. -/
theorem c8_plain_stripping :
    (∀ s : String, pyReplace "**" "" s = String.join (pySplit "**" s)) ∧
    pyReplace "**" "" "Check **X**." = "Check X." ∧
    plain_text = String.join (pySplit "**" START_MESSAGE) := by
  have hgen : ∀ s : String, pyReplace "**" "" s = String.join (pySplit "**" s) := by
    intro s
    have hsep : ("**" : String).data = ['*', '*'] := rfl
    have hempty : ("" : String).data = [] := rfl
    simp only [pyReplace, pySplit, hsep, hempty]
    rw [pyReplaceSepGo_join, join_map_mk]
  exact ⟨hgen, by decide, hgen START_MESSAGE⟩

end RLTools
